import Mathlib

/-!
Verification development for the Topo language front end (lexer + parser,
src/1.2/lexer.c and src/1.2/parser.c, AST builder in ast.c).

The C sources are shallowly embedded: the source buffer is a `List Char`
treated as a NUL-terminated byte string (reading past the end, or reading an
explicit NUL character, yields the terminator, exactly as `source[pos]` does
in C); machine integers are `Int`/`Nat` (no arithmetic here overflows a C
`long`/`int`); C `double` values produced by `atof` are modelled exactly as
rationals (`Rat`), which is a faithful model of the decimal/exponent formats
the scanner feeds to `atof` up to the final double rounding step.

Scanning loops are embedded as structurally recursive functions on an
explicit fuel argument; every public entry point supplies fuel derived from
the length of the unread input, which dominates the number of iterations of
each loop (each iteration of every loop consumes at least one character of
input, or exits).  Theorems about these functions either evaluate them on
concrete inputs or hold for every fuel value.
-/

/-- Convert a Lean string literal to the byte-list representation used for C
strings throughout this development. -/
def chars (s : String) : List Char := s.toList

/-- The C string terminator. -/
def nulChar : Char := Char.ofNat 0

/-- The backslash character (escape introducer in string literals). -/
def bslash : Char := Char.ofNat 92

/-- The single-quote character (alternative string delimiter). -/
def squote : Char := Char.ofNat 39

/-- `isdigit` from ctype.h (C locale / ASCII semantics). -/
def isDigitC (c : Char) : Bool := 48 ≤ c.toNat && c.toNat ≤ 57

/-- `isalpha` from ctype.h (ASCII semantics: single bytes ≥ 0x80 are not
alphabetic in the UTF-8 locale the driver selects). -/
def isAlphaC (c : Char) : Bool :=
  (65 ≤ c.toNat && c.toNat ≤ 90) || (97 ≤ c.toNat && c.toNat ≤ 122)

/-- `isalnum` from ctype.h. -/
def isAlnumC (c : Char) : Bool := isAlphaC c || isDigitC c

/-- `isxdigit` from ctype.h. -/
def isXdigitC (c : Char) : Bool :=
  isDigitC c || (65 ≤ c.toNat && c.toNat ≤ 70) || (97 ≤ c.toNat && c.toNat ≤ 102)

/-- `utf8_char_length` from lexer.c: length in bytes of a UTF-8 sequence
starting with the given byte (1 for invalid starts). -/
def utf8CharLength (c : Char) : Nat :=
  let n := c.toNat
  if n &&& 0x80 = 0x00 then 1
  else if n &&& 0xE0 = 0xC0 then 2
  else if n &&& 0xF0 = 0xE0 then 3
  else if n &&& 0xF8 = 0xF0 then 4
  else 1

/-- `is_identifier_start` from lexer.c. -/
def isIdentifierStartC (c : Char) : Bool :=
  if isAlphaC c || c = '_' then true
  else if 0xC0 ≤ c.toNat then decide (2 ≤ utf8CharLength c)
  else false

/-- `is_identifier_char` from lexer.c. -/
def isIdentifierCharC (c : Char) : Bool :=
  isAlnumC c || c = '_' || 0x80 ≤ c.toNat

/-- The token-kind enumeration from lexer.c.  `TOKEN_KEYWORD` is referenced
by parser.c (for the `and` / `or` / `not` alternatives) but is not a member
of the lexer's enum; it is included here as a kind the lexer never produces,
so those `parser_match` calls never succeed. -/
inductive TokenType where
  | TOKEN_VAR | TOKEN_CONST | TOKEN_FUNC | TOKEN_IF | TOKEN_ELSE | TOKEN_ELIF
  | TOKEN_WHILE | TOKEN_FOR | TOKEN_IN | TOKEN_RETURN | TOKEN_TRUE | TOKEN_FALSE
  | TOKEN_NULL | TOKEN_AND | TOKEN_OR | TOKEN_NOT | TOKEN_BREAK | TOKEN_CONTINUE
  | TOKEN_CONSOLE | TOKEN_INPUT | TOKEN_LEN | TOKEN_APPEND | TOKEN_POP
  | TOKEN_KEYS | TOKEN_VALUES | TOKEN_TYPE | TOKEN_INT | TOKEN_FLOAT_FUNC
  | TOKEN_STR | TOKEN_BOOL | TOKEN_ARRAY | TOKEN_DICT | TOKEN_RANGE
  | TOKEN_FROM | TOKEN_USING
  | TOKEN_IDENTIFIER | TOKEN_NUMBER_INT | TOKEN_NUMBER_FLOAT | TOKEN_STRING
  | TOKEN_OPERATOR | TOKEN_PUNCTUATION | TOKEN_NEWLINE | TOKEN_EOF | TOKEN_ERROR
  | TOKEN_KEYWORD
deriving DecidableEq

open TokenType

/-- The `Token` struct from lexer.c.  `value` models the (possibly NULL)
`char*` payload; `floatVal` models the C `double` exactly as a rational. -/
structure Token where
  type : TokenType
  value : Option (List Char)
  intVal : Int
  floatVal : Rat
  line : Nat
  column : Nat
  length : Nat
deriving DecidableEq

/-- The scanning-related fields of the `Lexer` struct from lexer.c: source
buffer, cursor, token-start markers, sticky error flag with diagnostic, and
the string-assembly buffer.  The scanning functions in lexer.c read and
write only these fields; the lookahead queue and `current` token live in
`Lexer` below. -/
structure ScanSt where
  source : List Char
  pos : Nat
  line : Nat
  column : Nat
  startPos : Nat
  startLine : Nat
  startColumn : Nat
  hasError : Bool
  errorMsg : List Char
  stringBuffer : List Char
deriving DecidableEq

/-- The full `Lexer` struct: scanning state plus the current token and the
(at most 2 deep) lookahead queue, front first. -/
structure Lexer where
  scan : ScanSt
  current : Token
  lookahead : List Token
deriving DecidableEq

/-- `keyword_table` from lexer.c. -/
def keywordTable : List (List Char × TokenType) :=
  [ (chars ("var"), TOKEN_VAR), (chars ("const"), TOKEN_CONST),
    (chars ("func"), TOKEN_FUNC),
    (chars ("if"), TOKEN_IF), (chars ("else"), TOKEN_ELSE),
    (chars ("elif"), TOKEN_ELIF), (chars ("while"), TOKEN_WHILE),
    (chars ("for"), TOKEN_FOR), (chars ("in"), TOKEN_IN),
    (chars ("return"), TOKEN_RETURN), (chars ("break"), TOKEN_BREAK),
    (chars ("continue"), TOKEN_CONTINUE),
    (chars ("true"), TOKEN_TRUE), (chars ("false"), TOKEN_FALSE),
    (chars ("null"), TOKEN_NULL),
    (chars ("and"), TOKEN_AND), (chars ("or"), TOKEN_OR),
    (chars ("not"), TOKEN_NOT),
    (chars ("console"), TOKEN_CONSOLE), (chars ("input"), TOKEN_INPUT),
    (chars ("len"), TOKEN_LEN), (chars ("append"), TOKEN_APPEND),
    (chars ("pop"), TOKEN_POP), (chars ("keys"), TOKEN_KEYS),
    (chars ("values"), TOKEN_VALUES), (chars ("type"), TOKEN_TYPE),
    (chars ("int"), TOKEN_INT), (chars ("float"), TOKEN_FLOAT_FUNC),
    (chars ("str"), TOKEN_STR), (chars ("bool"), TOKEN_BOOL),
    (chars ("array"), TOKEN_ARRAY), (chars ("dict"), TOKEN_DICT),
    (chars ("range"), TOKEN_RANGE), (chars ("from"), TOKEN_FROM),
    (chars ("using"), TOKEN_USING) ]

/-- `operator_table` from lexer.c, in source order (two-character entries
first).  Every entry has token type `TOKEN_OPERATOR` and its stated length
equals the lexeme length, so only the lexemes are recorded. -/
def operatorTable : List (List Char) :=
  [ chars ("=="), chars ("!="), chars ("<="), chars (">="),
    chars ("&&"), chars ("||"), chars ("+="), chars ("-="),
    chars ("*="), chars ("/="), chars ("%="),
    chars ("+"), chars ("-"), chars ("*"), chars ("/"), chars ("%"),
    chars ("="), chars ("<"), chars (">"), chars ("!"),
    chars ("&"), chars ("|"), chars ("^"), chars ("~") ]

/-- The two-character entries of `operator_table`. -/
def twoCharOperators : List (List Char) :=
  operatorTable.filter (fun op => op.length = 2)

/-- `punctuation_chars` from lexer.c. -/
def punctuationChars : List Char := chars ("(){}[].,;:")

/-- Numeric value of a decimal digit character. -/
def digitVal (c : Char) : Nat := c.toNat - 48

/-- Numeric value of a hexadecimal digit character (only applied to
characters satisfying `isXdigitC`). -/
def hexDigitVal (c : Char) : Nat :=
  if isDigitC c then c.toNat - 48
  else if 65 ≤ c.toNat && c.toNat ≤ 70 then c.toNat - 55
  else c.toNat - 87

/-- Fold a digit list into a natural number in the given base. -/
def natFromDigits (base : Nat) (val : Char → Nat) (ds : List Char) : Nat :=
  ds.foldl (fun a c => a * base + val c) 0

/-- Models libc `atol` on the digit-leading texts produced by the number
scanner: the longest leading run of decimal digits is converted. -/
def atolM (cs : List Char) : Int :=
  Int.ofNat (natFromDigits 10 digitVal (cs.takeWhile isDigitC))

/-- Models libc `strtol(text, NULL, 16)`: an optional `0x`/`0X` prefix is
skipped when followed by a hexadecimal digit, then the longest leading run
of hexadecimal digits is converted (so `"0x"` alone converts its `0`). -/
def strtolHexM (cs : List Char) : Int :=
  let body :=
    match cs with
    | c0 :: c1 :: rest =>
      if c0 = '0' && (c1 = 'x' || c1 = 'X') && isXdigitC (rest.headD nulChar)
      then rest else cs
    | _ => cs
  Int.ofNat (natFromDigits 16 hexDigitVal (body.takeWhile isXdigitC))

/-- Models libc `strtol(text, NULL, 2)` as applied to the binary digit runs
produced by the scanner (the `0b` prefix is already stripped by the caller,
as in `lexer_make_number_token`). -/
def strtolBinM (cs : List Char) : Int :=
  Int.ofNat (natFromDigits 2 digitVal (cs.takeWhile (fun c => c = '0' || c = '1')))

/-- Models libc `atof` on the decimal/exponent formats produced by the
number scanner, exactly, as a rational: `[digits][.digits][(e|E)[+|-]digits]`.
The final rounding of that exact value to the nearest `double` is the only
step not modelled. -/
def atofQ (cs : List Char) : Rat :=
  let ip := cs.takeWhile isDigitC
  let r1 := cs.dropWhile isDigitC
  let fp := if r1.headD nulChar = '.' then (r1.drop 1).takeWhile isDigitC else []
  let r2 := if r1.headD nulChar = '.' then (r1.drop 1).dropWhile isDigitC else r1
  let mant : Rat :=
    (natFromDigits 10 digitVal ip : Rat) +
      (natFromDigits 10 digitVal fp : Rat) / ((10 ^ fp.length : Nat) : Rat)
  if r2.headD nulChar = 'e' || r2.headD nulChar = 'E' then
    let r3 := r2.drop 1
    let neg := r3.headD nulChar = '-'
    let r4 := if r3.headD nulChar = '-' || r3.headD nulChar = '+' then r3.drop 1 else r3
    let ev := natFromDigits 10 digitVal (r4.takeWhile isDigitC)
    if neg then mant / ((10 ^ ev : Nat) : Rat) else mant * ((10 ^ ev : Nat) : Rat)
  else mant

/-- `lexer_peek`: the character at the cursor, with NUL past the end. -/
def lexPeek (s : ScanSt) : Char := s.source.getD s.pos nulChar

/-- `lexer_peek_at` (all call sites use non-negative offsets). -/
def lexPeekAt (s : ScanSt) (off : Nat) : Char := s.source.getD (s.pos + off) nulChar

/-- `lexer_advance`: consume one character, updating line/column; at the
terminator it returns NUL without moving. -/
def lexAdvance (s : ScanSt) : Char × ScanSt :=
  let c := lexPeek s
  if c = nulChar then (nulChar, s)
  else
    (c, { s with pos := s.pos + 1,
                 line := if c = '\n' then s.line + 1 else s.line,
                 column := if c = '\n' then 1 else s.column + 1 })

/-- Apply `lexer_advance` a fixed number of times (the operator-consumption
loop in `lexer_read_operator`). -/
def lexAdvanceN : Nat → ScanSt → ScanSt
  | 0, s => s
  | n + 1, s => lexAdvanceN n (lexAdvance s).2

/-- `lexer_start_token`. -/
def startToken (s : ScanSt) : ScanSt :=
  { s with startPos := s.pos, startLine := s.line, startColumn := s.column }

/-- `lexer_error`: set the sticky flag and record the diagnostic (the
`printf`-style formatting of the message is not modelled; the format string
is recorded as the message). -/
def scanError (s : ScanSt) (msg : List Char) : ScanSt :=
  { s with hasError := true, errorMsg := msg }

/-- `lexer_make_token`. -/
def makeToken (s : ScanSt) (ty : TokenType) (v : Option (List Char)) : Token :=
  { type := ty, value := v, line := s.startLine, column := s.startColumn,
    length := s.pos - s.startPos, intVal := 0, floatVal := 0 }

/-- `lexer_make_number_token`. -/
def makeNumberToken (s : ScanSt) (text : List Char)
    (isFloat isHex isBin : Bool) : Token :=
  let t := makeToken s (if isFloat then TOKEN_NUMBER_FLOAT else TOKEN_NUMBER_INT)
    (some text)
  if isFloat then { t with floatVal := atofQ text }
  else if isHex then { t with intVal := strtolHexM text }
  else if isBin then { t with intVal := strtolBinM (text.drop 2) }
  else { t with intVal := atolM text }

/-- The loop of `lexer_skip_whitespace` (space, tab, CR are skipped; the
NUL guard of the C loop is subsumed because NUL is not whitespace). -/
def skipWsF : Nat → ScanSt → ScanSt
  | 0, s => s
  | n + 1, s =>
    let c := lexPeek s
    if c = nulChar then s
    else if c = ' ' || c = '\t' || c = '\r' then skipWsF n (lexAdvance s).2
    else s

/-- `lexer_skip_whitespace` with fuel derived from the unread input. -/
def skipWs (s : ScanSt) : ScanSt := skipWsF (s.source.length + 1 - s.pos) s

/-- The to-end-of-line loop of `lexer_skip_line_comment`. -/
def lineCommentF : Nat → ScanSt → ScanSt
  | 0, s => s
  | n + 1, s =>
    if lexPeek s ≠ '\n' && lexPeek s ≠ nulChar then lineCommentF n (lexAdvance s).2
    else s

/-- `lexer_skip_line_comment`: `some` of the new state when a `//` comment
was consumed, `none` (C `false`) otherwise. -/
def skipLineComment (s : ScanSt) : Option ScanSt :=
  if lexPeekAt s 0 = '/' && lexPeekAt s 1 = '/' then
    let s := (lexAdvance (lexAdvance s).2).2
    some (lineCommentF (s.source.length + 1 - s.pos) s)
  else none

/-- The depth-counting loop of `lexer_skip_block_comment`.  Note the
faithful reproduction of the newline handling: the loop increments `line`
(and zeroes `column`) itself and then calls `lexer_advance`, which
increments `line` again, so each newline inside a block comment bumps the
line counter twice. -/
def blockCommentF : Nat → Nat → ScanSt → ScanSt
  | 0, _, s => s
  | n + 1, depth, s =>
    if 0 < depth && lexPeek s ≠ nulChar then
      if lexPeekAt s 0 = '/' && lexPeekAt s 1 = '*' then
        blockCommentF n (depth + 1) (lexAdvance (lexAdvance s).2).2
      else if lexPeekAt s 0 = '*' && lexPeekAt s 1 = '/' then
        blockCommentF n (depth - 1) (lexAdvance (lexAdvance s).2).2
      else
        let s := if lexPeek s = '\n' then { s with line := s.line + 1, column := 0 }
                 else s
        blockCommentF n depth (lexAdvance s).2
    else if 0 < depth then scanError s (chars ("Unclosed multi-line comment"))
    else s

/-- `lexer_skip_block_comment`: `some` of the new state when a `/*` comment
was consumed (reporting UnclosedComment at EOF with positive depth),
`none` (C `false`) otherwise. -/
def skipBlockComment (s : ScanSt) : Option ScanSt :=
  if lexPeekAt s 0 = '/' && lexPeekAt s 1 = '*' then
    let s := (lexAdvance (lexAdvance s).2).2
    some (blockCommentF (s.source.length + 1 - s.pos) 1 s)
  else none

/-- The scanning loop of `lexer_read_number`.  The bottom-of-loop
`lexer_advance` of the C code is inlined into each continuing branch; the
`break` statements become returns.  Returns the final state and the final
`is_float` flag. -/
def numLoopF : Nat → Bool → Bool → Bool → Bool → ScanSt → ScanSt × Bool
  | 0, _, _, isFloat, _, s => (s, isFloat)
  | n + 1, isHex, isBin, isFloat, hasExp, s =>
    let c := lexPeek s
    if isHex then
      if isXdigitC c then numLoopF n isHex isBin isFloat hasExp (lexAdvance s).2
      else (s, isFloat)
    else if isBin then
      if c = '0' || c = '1' then numLoopF n isHex isBin isFloat hasExp (lexAdvance s).2
      else (s, isFloat)
    else if c = '.' then
      if isFloat || hasExp then (scanError s (chars ("Invalid number format")), isFloat)
      else numLoopF n isHex isBin true hasExp (lexAdvance s).2
    else if c = 'e' || c = 'E' then
      if hasExp then (scanError s (chars ("Invalid number format")), isFloat)
      else
        let nxt := lexPeekAt s 1
        if nxt = '+' || nxt = '-' then
          numLoopF n isHex isBin true true (lexAdvance (lexAdvance s).2).2
        else numLoopF n isHex isBin true true (lexAdvance s).2
    else if !isDigitC c then (s, isFloat)
    else numLoopF n isHex isBin isFloat hasExp (lexAdvance s).2

/-- `lexer_read_number` (the out-of-memory path for the text copy is not
modelled; allocation always succeeds). -/
def readNumber (s : ScanSt) : Token × ScanSt :=
  let s := startToken s
  let pr : Bool × Bool × ScanSt :=
    if lexPeek s = '0' then
      let nx := lexPeekAt s 1
      if nx = 'x' || nx = 'X' then (true, false, (lexAdvance (lexAdvance s).2).2)
      else if nx = 'b' || nx = 'B' then (false, true, (lexAdvance (lexAdvance s).2).2)
      else (false, false, s)
    else (false, false, s)
  let isHex := pr.1
  let isBin := pr.2.1
  let s := pr.2.2
  let r := numLoopF (s.source.length + 1 - s.pos) isHex isBin false false s
  let s := r.1
  let isFloat := r.2
  let text := (s.source.drop s.startPos).take (s.pos - s.startPos)
  (makeNumberToken s text isFloat isHex isBin, s)

/-- The escape-sequence `switch` inside `lexer_read_string`; the state is
just after the backslash was consumed.  Returns the character to append and
the new state.  For `\xHH` the C code casts `strtol` of the two consumed
characters to `char`; for `\uXXXX` it validates up to four hex digits
(stopping at the first invalid one) and always substitutes the placeholder
`?`; an unrecognized escape reports an error and appends the backslash
itself (the C `c` variable is left unchanged by the `default` arm). -/
def strEscape (s : ScanSt) : Char × ScanSt :=
  let a := lexAdvance s
  let nx := a.1
  let s := a.2
  if nx = 'n' then ('\n', s)
  else if nx = 't' then ('\t', s)
  else if nx = 'r' then ('\r', s)
  else if nx = '"' then ('"', s)
  else if nx = squote then (squote, s)
  else if nx = bslash then (bslash, s)
  else if nx = '0' then (nulChar, s)
  else if nx = 'x' then
    let a1 := lexAdvance s
    let a2 := lexAdvance a1.2
    (Char.ofNat (Int.toNat (strtolHexM [a1.1, a2.1]) % 256), a2.2)
  else if nx = 'u' then
    let a1 := lexAdvance s
    if !isXdigitC a1.1 then ('?', scanError a1.2 (chars ("Invalid Unicode escape")))
    else
      let a2 := lexAdvance a1.2
      if !isXdigitC a2.1 then ('?', scanError a2.2 (chars ("Invalid Unicode escape")))
      else
        let a3 := lexAdvance a2.2
        if !isXdigitC a3.1 then ('?', scanError a3.2 (chars ("Invalid Unicode escape")))
        else
          let a4 := lexAdvance a3.2
          if !isXdigitC a4.1 then ('?', scanError a4.2 (chars ("Invalid Unicode escape")))
          else ('?', a4.2)
  else (bslash, scanError s (chars ("Unknown escape sequence")))

/-- The assembly loop of `lexer_read_string`: consume characters until the
closing quote or the terminator, processing escapes, with the capacity
check (4095) performed before each append, erroring and stopping on
overflow.  A literal newline is consumed like any other character. -/
def strLoopF : Nat → Char → ScanSt → ScanSt
  | 0, _, s => s
  | n + 1, q, s =>
    if lexPeek s ≠ q && lexPeek s ≠ nulChar then
      let a := lexAdvance s
      let e := if a.1 = bslash then strEscape a.2 else (a.1, a.2)
      let c := e.1
      let s := e.2
      if 4095 ≤ s.stringBuffer.length then scanError s (chars ("String too long"))
      else strLoopF n q { s with stringBuffer := s.stringBuffer ++ [c] }
    else s

/-- `lexer_read_string`. -/
def readString (s : ScanSt) : Token × ScanSt :=
  let s := startToken s
  let a := lexAdvance s
  let q := a.1
  let s := { a.2 with stringBuffer := [] }
  let s := strLoopF (s.source.length + 1 - s.pos) q s
  if lexPeek s ≠ q then
    let s := scanError s (chars ("Unclosed string"))
    ({ makeToken s TOKEN_ERROR (some (chars ("Unclosed string"))) with length := 0 }, s)
  else
    let s := (lexAdvance s).2
    (makeToken s TOKEN_STRING (some s.stringBuffer), s)

/-- The continuation loop of `lexer_read_identifier`, with the length cap
(128) reported as IdentifierTooLong and the partial identifier kept. -/
def identLoopF : Nat → ScanSt → ScanSt
  | 0, s => s
  | n + 1, s =>
    if isIdentifierCharC (lexPeek s) then
      if 128 ≤ s.pos - s.startPos then scanError s (chars ("Identifier too long"))
      else identLoopF n (lexAdvance s).2
    else s

/-- Keyword lookup: first exact match in `keyword_table`. -/
def keywordLookup (text : List Char) : Option TokenType :=
  (keywordTable.find? (fun kv => kv.1 = text)).map (·.2)

/-- `lexer_read_identifier` (memory errors not modelled). -/
def readIdentifier (s : ScanSt) : Token × ScanSt :=
  let s := startToken s
  let s := (lexAdvance s).2
  let s := identLoopF (s.source.length + 1 - s.pos) s
  let text := (s.source.drop s.startPos).take (s.pos - s.startPos)
  match keywordLookup text with
  | some ty => (makeToken s ty none, s)
  | none => (makeToken s TOKEN_IDENTIFIER (some text), s)

/-- Whether every character of `op` matches the input at the cursor
(the inner `for j` loop of `lexer_read_operator`). -/
def opMatchesFrom (s : ScanSt) (off : Nat) : List Char → Bool
  | [] => true
  | c :: cs => lexPeekAt s off = c && opMatchesFrom s (off + 1) cs

/-- The best-match scan of `lexer_read_operator`: iterate the table in
order, keeping a candidate and replacing it only by a strictly longer
match. -/
def bestOp (s : ScanSt) : Option (List Char) :=
  operatorTable.foldl
    (fun best op =>
      if opMatchesFrom s 0 op then
        match best with
        | none => some op
        | some b => if b.length < op.length then some op else best
      else best)
    none

/-- `lexer_read_operator`. -/
def readOperator (s : ScanSt) : Token × ScanSt :=
  let s := startToken s
  match bestOp s with
  | some op =>
    let s := lexAdvanceN op.length s
    (makeToken s TOKEN_OPERATOR (some op), s)
  | none =>
    let s := scanError s (chars ("Unknown operator"))
    let s := (lexAdvance s).2
    ({ makeToken s TOKEN_ERROR (some (chars ("Unknown operator"))) with length := 0 }, s)

/-- The scanning part of `lexer_next` (everything after the lookahead-queue
check): the whitespace/comment skipping loop followed by the dispatch.  The
EOF token is built without `lexer_start_token`, so it carries the stale
start markers of the previous token, as in the C code. -/
def scanLoopF : Nat → ScanSt → Token × ScanSt
  | 0, s => (makeToken s TOKEN_EOF none, s)
  | n + 1, s =>
    let s := skipWs s
    match skipLineComment s with
    | some s => scanLoopF n s
    | none =>
    match skipBlockComment s with
    | some s => scanLoopF n s
    | none =>
      if lexPeek s = nulChar then (makeToken s TOKEN_EOF none, s)
      else if lexPeek s = '\n' then
        let s := startToken s
        let s := (lexAdvance s).2
        (makeToken s TOKEN_NEWLINE (some [Char.ofNat 10]), s)
      else
        let c := lexPeek s
        if isDigitC c || (c = '.' && isDigitC (lexPeekAt s 1)) then readNumber s
        else if c = '"' || c = squote then readString s
        else if isIdentifierStartC c then readIdentifier s
        else if operatorTable.any (fun op => lexPeekAt s 0 = op.headD nulChar) then
          readOperator s
        else if punctuationChars.contains c then
          let s := startToken s
          let a := lexAdvance s
          (makeToken a.2 TOKEN_PUNCTUATION (some [a.1]), a.2)
        else
          let s := startToken s
          let s := scanError s (chars ("Unknown character"))
          let s := (lexAdvance s).2
          ({ makeToken s TOKEN_ERROR (some (chars ("Unknown character"))) with
              length := 0 }, s)

/-- Scan one token from the raw input (fuel derived from the unread input;
each iteration of the skip loop consumes at least two characters). -/
def scanToken (s : ScanSt) : Token × ScanSt :=
  scanLoopF (s.source.length + 1 - s.pos) s

/-- `lexer_create` (the filename, used only in diagnostics, is not
modelled).  Note that `current` is initialized to a synthetic EOF token. -/
def lexerCreate (src : List Char) : Lexer :=
  { scan := { source := src, pos := 0, line := 1, column := 1,
              startPos := 0, startLine := 1, startColumn := 1,
              hasError := false, errorMsg := [], stringBuffer := [] },
    current := { type := TOKEN_EOF, value := none, intVal := 0, floatVal := 0,
                 line := 1, column := 1, length := 0 },
    lookahead := [] }

/-- `lexer_next`: pop the lookahead queue if non-empty, otherwise scan. -/
def lexerNext (l : Lexer) : Token × Lexer :=
  match l.lookahead with
  | t :: rest => (t, { l with lookahead := rest })
  | [] =>
    let r := scanToken l.scan
    (r.1, { l with scan := r.2 })

/-- `lexer_current`. -/
def lexerCurrent (l : Lexer) : Token :=
  match l.lookahead with
  | t :: _ => t
  | [] => l.current

/-- `lexer_skip`: pop the queue, or scan the next token into `current`. -/
def lexerSkip (l : Lexer) : Lexer :=
  match l.lookahead with
  | _ :: rest => { l with lookahead := rest }
  | [] =>
    let r := scanToken l.scan
    { l with scan := r.2, current := r.1 }

/-- The zero-filled error token returned by `lexer_peek_token` for an
out-of-range lookahead index. -/
def zeroErrorToken : Token :=
  { type := TOKEN_ERROR, value := none, intVal := 0, floatVal := 0,
    line := 0, column := 0, length := 0 }

/-- The fill loop of `lexer_peek_token`: while the queue holds at most `k`
tokens, fetch with `lexer_next` and append.  (For `k = 1` with exactly one
queued token the C loop pops and re-appends that token forever; the fuel
bound makes the model return after `k + 2` iterations instead.  No claim,
and no caller in parser.c, exercises that case; for `k = 0` at most one
iteration runs.) -/
def peekFillF : Nat → Nat → Lexer → Lexer
  | 0, _, l => l
  | n + 1, k, l =>
    if l.lookahead.length ≤ k then
      let r := lexerNext l
      peekFillF n k { r.2 with lookahead := r.2.lookahead ++ [r.1] }
    else l

/-- `lexer_peek_token` (the mutation of the lexer is returned alongside the
token). -/
def lexerPeekToken (l : Lexer) (k : Nat) : Token × Lexer :=
  if 2 ≤ k then (zeroErrorToken, l)
  else
    let l := peekFillF (k + 2) k l
    (l.lookahead.getD k zeroErrorToken, l)

/-- The AST node model, one constructor per `create_*_node` function of
ast.c, carrying exactly the payload that function stores.  `next`-chains are
represented as `List Ast` at the point where a chain is anchored.  `Option`
marks pointer/char* parameters that the parser can actually pass as NULL;
`argCount` / `elementCount` / `pairCount` are kept separate from the lists
because the C list-building aliases the head node (see `addNextHead`), so
the recorded count can exceed the length of the reachable chain. -/
inductive Ast where
  | program (stmts : List Ast)
  | block (stmts : List Ast) (line column : Nat)
  | varDecl (name : Option (List Char)) (value : Option Ast) (isConst : Bool)
      (line column : Nat)
  | ifStmt (cond : Ast) (thenBranch : Ast) (elseBranch : Option Ast)
      (elifBranches : List Ast) (line column : Nat)
  | elifStmt (cond : Ast) (thenBranch : Ast) (line column : Nat)
  | whileStmt (cond : Ast) (body : Ast) (line column : Nat)
  | forStmt (iterator : Option (List Char)) (iterable : Ast) (body : Ast)
      (line column : Nat)
  | returnStmt (value : Option Ast) (line column : Nat)
  | breakStmt (line column : Nat)
  | continueStmt (line column : Nat)
  | exprStmt (e : Ast) (line column : Nat)
  | fromImport (moduleName : Option (List Char))
      (imports : List (Option (List Char))) (importAll : Bool) (line column : Nat)
  | binaryExpr (op : Option (List Char)) (left right : Ast) (line column : Nat)
  | unaryExpr (op : Option (List Char)) (operand : Ast) (line column : Nat)
  | litInt (v : Int) (line column : Nat)
  | litFloat (v : Rat) (line column : Nat)
  | litString (v : Option (List Char)) (line column : Nat)
  | litBool (v : Bool) (line column : Nat)
  | litNull (line column : Nat)
  | identExpr (name : Option (List Char)) (line column : Nat)
  | assignExpr (target value : Ast) (line column : Nat)
  | callExpr (callee : Ast) (args : List Ast) (argCount : Nat) (line column : Nat)
  | arrayLit (elements : List Ast) (elementCount : Nat) (line column : Nat)
  | dictLit (keys : List (Option (List Char))) (values : List Ast)
      (pairCount : Nat) (line column : Nat)
  | memberAccess (obj : Ast) (member : Option (List Char)) (line column : Nat)
  | indexAccess (arr : Ast) (idx : Ast) (line column : Nat)
  | rangeExpr (start stop step : Option Ast) (line column : Nat)

/-- Models the list-building pattern of parser.c for call arguments, array
elements, dictionary values and elif chains:
`if (!list) list = x; else add_next_statement(list, x);`.
`add_next_statement` overwrites the `next` pointer of the HEAD node, so
after appending a third element the chain reachable from the head is
`[first, last]`: middle elements are dropped (they leak in C).  (Statement
lists in `parse_block`/`parse_program` instead track a tail pointer and
append properly.) -/
def addNextHead (chain : List Ast) (x : Ast) : List Ast :=
  match chain with
  | [] => [x]
  | h :: _ => [h, x]

/-- The `Parser` struct from parser.c. -/
structure PState where
  lexer : Lexer
  current : Token
  hasError : Bool
  errorMsg : List Char
  errorLine : Nat
  errorColumn : Nat

/-- `parser_create`: note that no token is fetched from the input; the
parser's `current` starts as the lexer's initial synthetic EOF token. -/
def parserCreate (l : Lexer) : PState :=
  { lexer := l, current := lexerCurrent l, hasError := false,
    errorMsg := [], errorLine := 0, errorColumn := 0 }

/-- `parser_error` (message formatting not modelled). -/
def parserError (st : PState) (msg : List Char) : PState :=
  { st with hasError := true, errorMsg := msg,
            errorLine := st.current.line, errorColumn := st.current.column }

/-- `parser_advance`. -/
def parserAdvance (st : PState) : PState :=
  let l := lexerSkip st.lexer
  { st with lexer := l, current := lexerCurrent l }

/-- `parser_check`. -/
def parserCheck (st : PState) (ty : TokenType) : Bool := st.current.type = ty

/-- `parser_check_value`: with a NULL expected value the token matches when
its own value is NULL too. -/
def parserCheckValue (st : PState) (ty : TokenType) (v : Option (List Char)) : Bool :=
  if st.current.type ≠ ty then false
  else
    match v, st.current.value with
    | none, none => true
    | none, some _ => false
    | some _, none => false
    | some a, some b => a = b

/-- `parser_expect` from parser.c: reports an error when the current token
does not match, but — unlike the lexer's `lexer_expect` — never consumes
the token on success. -/
def parserExpect (st : PState) (ty : TokenType) (v : Option (List Char))
    (msg : List Char) : Bool × PState :=
  if parserCheckValue st ty v then (true, st) else (false, parserError st msg)

/-- `parser_match`: consume the current token iff it matches. -/
def parserMatch (st : PState) (ty : TokenType) (v : Option (List Char)) :
    Bool × PState :=
  if parserCheckValue st ty v then (true, parserAdvance st) else (false, st)

/-- A short-circuit chain of `parser_match` calls, as in the conditions of
the binary-operator `while` loops (`parser_match(..) || parser_match(..)`). -/
def matchAnyOp (st : PState) (ops : List (TokenType × List Char)) : Bool × PState :=
  ops.foldl (fun acc o => if acc.1 then acc else parserMatch acc.2 o.1 (some o.2))
    (false, st)

/-- `parse_literal`. -/
def parseLiteral (st : PState) : Option Ast × PState :=
  let t := st.current
  match t.type with
  | TOKEN_NUMBER_INT => (some (Ast.litInt t.intVal t.line t.column), parserAdvance st)
  | TOKEN_NUMBER_FLOAT =>
    (some (Ast.litFloat t.floatVal t.line t.column), parserAdvance st)
  | TOKEN_STRING => (some (Ast.litString t.value t.line t.column), parserAdvance st)
  | TOKEN_TRUE => (some (Ast.litBool true t.line t.column), parserAdvance st)
  | TOKEN_FALSE => (some (Ast.litBool false t.line t.column), parserAdvance st)
  | TOKEN_NULL => (some (Ast.litNull t.line t.column), parserAdvance st)
  | _ => (none, st)

/-- `parse_identifier`. -/
def parseIdentNode (st : PState) : Option Ast × PState :=
  if parserCheck st TOKEN_IDENTIFIER then
    let t := st.current
    (some (Ast.identExpr t.value t.line t.column), parserAdvance st)
  else (none, st)

/-- The panic-mode recovery loop of `parse_block` / `parse_program`: skip
tokens up to the next NEWLINE or EOF. -/
def parseRecover : Nat → PState → PState
  | 0, st => st
  | n + 1, st =>
    if !parserCheck st TOKEN_NEWLINE && !parserCheck st TOKEN_EOF then
      parseRecover n (parserAdvance st)
    else st

/-!
The recursive-descent rules of parser.c, embedded as one mutual block of
structurally fuel-recursive functions: every inter-rule call spends one unit
of fuel, and a return value of `none` (for the whole computation) means the
fuel ran out — distinct from a C NULL result, which is the `Option Ast`
inside the pair.  The embedding reproduces parser.c faithfully, including:
no initial token fetch (the parser starts on the lexer's synthetic EOF
token); `parser_expect` not consuming the expected token; and every binary
operator loop consuming the operator inside `parser_match` and then reading
the operator text from (and advancing past) the token after it.
-/
mutual

/-- `parse_primary`. -/
def parsePrimary : Nat → PState → Option (Option Ast × PState)
  | 0, _ => none
  | n + 1, st => do
    let rl := parseLiteral st
    match rl.1 with
    | some node => some (some node, rl.2)
    | none =>
    let ri := parseIdentNode st
    match ri.1 with
    | some node =>
      let st := ri.2
      let m := parserMatch st TOKEN_PUNCTUATION (some (chars (".")))
      if m.1 then
        let st := m.2
        if !parserCheck st TOKEN_IDENTIFIER then
          some (none, parserError st (chars ("Expected member name after '.'")))
        else
          let mt := st.current
          let st := parserAdvance st
          some (some (Ast.memberAccess node mt.value mt.line mt.column), st)
      else
        let p := parserMatch m.2 TOKEN_PUNCTUATION (some (chars ("(")))
        if p.1 then
          let r := parserMatch p.2 TOKEN_PUNCTUATION (some (chars (")")))
          if r.1 then
            let st := r.2
            some (some (Ast.callExpr node [] 0 st.current.line st.current.column), st)
          else do
            let a ← parseArgsLoop n r.2 [] 0
            let st := a.2
            some (some (Ast.callExpr node a.1.1 a.1.2 st.current.line
              st.current.column), st)
        else some (some node, p.2)
    | none =>
      let st := ri.2
      let ab := parserMatch st TOKEN_PUNCTUATION (some (chars ("[")))
      if ab.1 then
        let ce := parserMatch ab.2 TOKEN_PUNCTUATION (some (chars ("]")))
        if ce.1 then
          let st := ce.2
          some (some (Ast.arrayLit [] 0 st.current.line st.current.column), st)
        else do
          let e ← parseElemsLoop n ce.2 [] 0
          let st := e.2
          some (some (Ast.arrayLit e.1.1 e.1.2 st.current.line st.current.column), st)
      else
        let db := parserMatch ab.2 TOKEN_PUNCTUATION (some (chars ("\x7b")))
        if db.1 then
          let de := parserMatch db.2 TOKEN_PUNCTUATION (some (chars ("\x7d")))
          if de.1 then
            let st := de.2
            some (some (Ast.dictLit [] [] 0 st.current.line st.current.column), st)
          else do
            let d ← parseDictLoop n de.2 [] [] 0
            let st := d.2
            some (some (Ast.dictLit d.1.1 d.1.2.1 d.1.2.2 st.current.line
              st.current.column), st)
        else
          let pb := parserMatch db.2 TOKEN_PUNCTUATION (some (chars ("(")))
          if pb.1 then do
            let r ← parseExpression n pb.2
            match r.1 with
            | none =>
              some (none, parserError r.2 (chars ("Expected expression after '('")))
            | some expr =>
              let e := parserExpect r.2 TOKEN_PUNCTUATION (some (chars (")")))
                (chars ("Expected ')' after expression"))
              if !e.1 then some (none, e.2)
              else some (some expr, e.2)
          else some (none, parserError pb.2 (chars ("Expected expression")))

/-- The argument loop of the call branch in `parse_primary`.  On every exit
path the C code falls through to `create_call_expr_node` with whatever
arguments were collected, so the loop always returns a pair (errors are
recorded in the state). -/
def parseArgsLoop : Nat → PState → List Ast → Nat →
    Option ((List Ast × Nat) × PState)
  | 0, _, _, _ => none
  | n + 1, st, args, count => do
    let r ← parseExpression n st
    match r.1 with
    | none =>
      some ((args, count),
        parserError r.2 (chars ("Expected expression in function call")))
    | some arg =>
      let args := addNextHead args arg
      let count := count + 1
      let c := parserMatch r.2 TOKEN_PUNCTUATION (some (chars (",")))
      if c.1 then parseArgsLoop n c.2 args count
      else
        let p := parserMatch c.2 TOKEN_PUNCTUATION (some (chars (")")))
        if p.1 then some ((args, count), p.2)
        else
          some ((args, count),
            parserError p.2 (chars ("Expected ',' or ')' in function call")))

/-- The element loop of the array-literal branch in `parse_primary`. -/
def parseElemsLoop : Nat → PState → List Ast → Nat →
    Option ((List Ast × Nat) × PState)
  | 0, _, _, _ => none
  | n + 1, st, elems, count => do
    let r ← parseExpression n st
    match r.1 with
    | none =>
      some ((elems, count), parserError r.2 (chars ("Expected expression in array")))
    | some el =>
      let elems := addNextHead elems el
      let count := count + 1
      let c := parserMatch r.2 TOKEN_PUNCTUATION (some (chars (",")))
      if c.1 then parseElemsLoop n c.2 elems count
      else
        let p := parserMatch c.2 TOKEN_PUNCTUATION (some (chars ("]")))
        if p.1 then some ((elems, count), p.2)
        else
          some ((elems, count),
            parserError p.2 (chars ("Expected ',' or ']' in array")))

/-- The key/value loop of the dictionary-literal branch in `parse_primary`. -/
def parseDictLoop : Nat → PState → List (Option (List Char)) → List Ast → Nat →
    Option ((List (Option (List Char)) × List Ast × Nat) × PState)
  | 0, _, _, _, _ => none
  | n + 1, st, keys, vals, count =>
    let kr : Option (Option (List Char)) × PState :=
      if parserCheck st TOKEN_STRING then (some st.current.value, parserAdvance st)
      else if parserCheck st TOKEN_IDENTIFIER then
        (some st.current.value, parserAdvance st)
      else (none, st)
    match kr.1 with
    | none =>
      some ((keys, vals, count),
        parserError kr.2 (chars ("Expected string or identifier as dictionary key")))
    | some key =>
      let e := parserExpect kr.2 TOKEN_PUNCTUATION (some (chars (":")))
        (chars ("Expected ':' after dictionary key"))
      if !e.1 then some ((keys, vals, count), e.2)
      else do
        let r ← parseExpression n e.2
        match r.1 with
        | none =>
          some ((keys, vals, count),
            parserError r.2 (chars ("Expected expression as dictionary value")))
        | some v =>
          let keys := keys ++ [key]
          let vals := addNextHead vals v
          let count := count + 1
          let c := parserMatch r.2 TOKEN_PUNCTUATION (some (chars (",")))
          if c.1 then parseDictLoop n c.2 keys vals count
          else
            let p := parserMatch c.2 TOKEN_PUNCTUATION (some (chars ("\x7d")))
            if p.1 then some ((keys, vals, count), p.2)
            else
              some ((keys, vals, count),
                parserError p.2 (chars ("Expected ',' or '\x7d' in dictionary")))

/-- `parse_unary`. -/
def parseUnary : Nat → PState → Option (Option Ast × PState)
  | 0, _ => none
  | n + 1, st =>
    let opTok := st.current
    let m1 := parserMatch st TOKEN_OPERATOR (some (chars ("-")))
    let sel : Option (List Char) × PState :=
      if m1.1 then (some (chars ("-")), m1.2)
      else
        let m2 := parserMatch m1.2 TOKEN_OPERATOR (some (chars ("!")))
        if m2.1 then (some (chars ("!")), m2.2)
        else
          let m3 := parserMatch m2.2 TOKEN_KEYWORD (some (chars ("not")))
          if m3.1 then (some (chars ("not")), m3.2) else (none, m3.2)
    match sel.1 with
    | some op => do
      let r ← parseUnary n sel.2
      match r.1 with
      | none =>
        some (none, parserError r.2 (chars ("Expected operand after unary operator")))
      | some operand =>
        some (some (Ast.unaryExpr (some op) operand opTok.line opTok.column), r.2)
    | none => parsePrimary n sel.2

/-- `parse_multiplicative`. -/
def parseMultiplicative : Nat → PState → Option (Option Ast × PState)
  | 0, _ => none
  | n + 1, st => do
    let r ← parseUnary n st
    match r.1 with
    | none => some (none, r.2)
    | some left => parseMultLoop n left r.2

/-- The `while` loop of `parse_multiplicative`.  Faithful to the double
advance of the C code: `parser_match` has already consumed the operator, so
`op`, `line`, `column` are read from the token after it, which
`parser_advance` then also consumes. -/
def parseMultLoop : Nat → Ast → PState → Option (Option Ast × PState)
  | 0, _, _ => none
  | n + 1, left, st =>
    let m := matchAnyOp st
      [(TOKEN_OPERATOR, chars ("*")), (TOKEN_OPERATOR, chars ("/")),
       (TOKEN_OPERATOR, chars ("%"))]
    if m.1 then
      let st := m.2
      let op := st.current.value
      let line := st.current.line
      let col := st.current.column
      let st := parserAdvance st
      do
        let r ← parseUnary n st
        match r.1 with
        | none =>
          some (none,
            parserError r.2 (chars ("Expected right operand for binary operator")))
        | some right =>
          parseMultLoop n (Ast.binaryExpr op left right line col) r.2
    else some (some left, m.2)

/-- `parse_additive`. -/
def parseAdditive : Nat → PState → Option (Option Ast × PState)
  | 0, _ => none
  | n + 1, st => do
    let r ← parseMultiplicative n st
    match r.1 with
    | none => some (none, r.2)
    | some left => parseAddLoop n left r.2

/-- The `while` loop of `parse_additive` (same double advance). -/
def parseAddLoop : Nat → Ast → PState → Option (Option Ast × PState)
  | 0, _, _ => none
  | n + 1, left, st =>
    let m := matchAnyOp st
      [(TOKEN_OPERATOR, chars ("+")), (TOKEN_OPERATOR, chars ("-"))]
    if m.1 then
      let st := m.2
      let op := st.current.value
      let line := st.current.line
      let col := st.current.column
      let st := parserAdvance st
      do
        let r ← parseMultiplicative n st
        match r.1 with
        | none =>
          some (none,
            parserError r.2 (chars ("Expected right operand for binary operator")))
        | some right => parseAddLoop n (Ast.binaryExpr op left right line col) r.2
    else some (some left, m.2)

/-- `parse_comparison`. -/
def parseComparison : Nat → PState → Option (Option Ast × PState)
  | 0, _ => none
  | n + 1, st => do
    let r ← parseAdditive n st
    match r.1 with
    | none => some (none, r.2)
    | some left => parseCompLoop n left r.2

/-- The `while` loop of `parse_comparison` (same double advance). -/
def parseCompLoop : Nat → Ast → PState → Option (Option Ast × PState)
  | 0, _, _ => none
  | n + 1, left, st =>
    let m := matchAnyOp st
      [(TOKEN_OPERATOR, chars ("<")), (TOKEN_OPERATOR, chars (">")),
       (TOKEN_OPERATOR, chars ("<=")), (TOKEN_OPERATOR, chars (">=")),
       (TOKEN_OPERATOR, chars ("==")), (TOKEN_OPERATOR, chars ("!="))]
    if m.1 then
      let st := m.2
      let op := st.current.value
      let line := st.current.line
      let col := st.current.column
      let st := parserAdvance st
      do
        let r ← parseAdditive n st
        match r.1 with
        | none =>
          some (none,
            parserError r.2 (chars ("Expected right operand for comparison operator")))
        | some right => parseCompLoop n (Ast.binaryExpr op left right line col) r.2
    else some (some left, m.2)

/-- `parse_logical_and`. -/
def parseLogicalAnd : Nat → PState → Option (Option Ast × PState)
  | 0, _ => none
  | n + 1, st => do
    let r ← parseComparison n st
    match r.1 with
    | none => some (none, r.2)
    | some left => parseAndLoop n left r.2

/-- The `while` loop of `parse_logical_and` (same double advance; the
`TOKEN_KEYWORD` alternative never matches because the lexer produces no
token of that kind). -/
def parseAndLoop : Nat → Ast → PState → Option (Option Ast × PState)
  | 0, _, _ => none
  | n + 1, left, st =>
    let m := matchAnyOp st
      [(TOKEN_OPERATOR, chars ("&&")), (TOKEN_KEYWORD, chars ("and"))]
    if m.1 then
      let st := m.2
      let op := st.current.value
      let line := st.current.line
      let col := st.current.column
      let st := parserAdvance st
      do
        let r ← parseComparison n st
        match r.1 with
        | none =>
          some (none, parserError r.2 (chars ("Expected right operand for logical AND")))
        | some right => parseAndLoop n (Ast.binaryExpr op left right line col) r.2
    else some (some left, m.2)

/-- `parse_logical_or`. -/
def parseLogicalOr : Nat → PState → Option (Option Ast × PState)
  | 0, _ => none
  | n + 1, st => do
    let r ← parseLogicalAnd n st
    match r.1 with
    | none => some (none, r.2)
    | some left => parseOrLoop n left r.2

/-- The `while` loop of `parse_logical_or` (same double advance). -/
def parseOrLoop : Nat → Ast → PState → Option (Option Ast × PState)
  | 0, _, _ => none
  | n + 1, left, st =>
    let m := matchAnyOp st
      [(TOKEN_OPERATOR, chars ("||")), (TOKEN_KEYWORD, chars ("or"))]
    if m.1 then
      let st := m.2
      let op := st.current.value
      let line := st.current.line
      let col := st.current.column
      let st := parserAdvance st
      do
        let r ← parseLogicalAnd n st
        match r.1 with
        | none =>
          some (none, parserError r.2 (chars ("Expected right operand for logical OR")))
        | some right => parseOrLoop n (Ast.binaryExpr op left right line col) r.2
    else some (some left, m.2)

/-- `parse_assignment`.  After matching an assignment operator the C code
reads `op` from the token following it (double advance, as in the binary
loops) and then tests `strlen(op) == 2 && op[1] == '='`; when that token's
value is NULL the C code would dereference NULL — modelled as the test failing (the compound branch not taken). -/
def parseAssignment : Nat → PState → Option (Option Ast × PState)
  | 0, _ => none
  | n + 1, st => do
    let r ← parseLogicalOr n st
    match r.1 with
    | none => some (none, r.2)
    | some left =>
      let m := matchAnyOp r.2
        [(TOKEN_OPERATOR, chars ("=")), (TOKEN_OPERATOR, chars ("+=")),
         (TOKEN_OPERATOR, chars ("-=")), (TOKEN_OPERATOR, chars ("*=")),
         (TOKEN_OPERATOR, chars ("/=")), (TOKEN_OPERATOR, chars ("%="))]
      if m.1 then
        let st := m.2
        let op := st.current.value
        let line := st.current.line
        let col := st.current.column
        let st := parserAdvance st
        let isCompound :=
          match op with
          | some o => decide (o.length = 2 ∧ o.getD 1 nulChar = '=')
          | none => false
        if isCompound then
          some (none,
            parserError st (chars ("Compound assignment not fully implemented yet")))
        else do
          let rr ← parseAssignment n st
          match rr.1 with
          | none =>
            some (none, parserError rr.2 (chars ("Expected right side of assignment")))
          | some right => some (some (Ast.assignExpr left right line col), rr.2)
      else some (some left, m.2)

/-- `parse_expression`. -/
def parseExpression : Nat → PState → Option (Option Ast × PState)
  | 0, _ => none
  | n + 1, st => parseAssignment n st

/-- `parse_block`. -/
def parseBlock : Nat → PState → Option (Ast × PState)
  | 0, _ => none
  | n + 1, st => do
    let r ← parseBlockLoop n [] st
    let st := r.2
    some (Ast.block r.1 st.current.line st.current.column, st)

/-- The statement loop of `parse_block`: run until a `}` punctuation token,
skipping blank NEWLINEs, erroring (and stopping) at EOF, recovering from a
failed statement by skipping to the next NEWLINE/EOF, and consuming an
optional `;` and an optional NEWLINE after each statement. -/
def parseBlockLoop : Nat → List Ast → PState → Option (List Ast × PState)
  | 0, _, _ => none
  | n + 1, acc, st =>
    if parserCheck st TOKEN_PUNCTUATION &&
        parserCheckValue st TOKEN_PUNCTUATION (some (chars ("\x7d"))) then
      some (acc, st)
    else if parserCheck st TOKEN_NEWLINE then parseBlockLoop n acc (parserAdvance st)
    else if parserCheck st TOKEN_EOF then
      some (acc, parserError st (chars ("Unexpected end of file in block")))
    else do
      let r ← parseStatement n st
      match r.1 with
      | none => parseBlockLoop n acc (parseRecover n r.2)
      | some stmt =>
        let acc := acc ++ [stmt]
        let st := (parserMatch r.2 TOKEN_PUNCTUATION (some (chars (";")))).2
        let st := if parserCheck st TOKEN_NEWLINE then parserAdvance st else st
        parseBlockLoop n acc st

/-- `parse_statement`. -/
def parseStatement : Nat → PState → Option (Option Ast × PState)
  | 0, _ => none
  | n + 1, st =>
    let mv := parserMatch st TOKEN_VAR none
    if mv.1 then
      let st := mv.2
      if !parserCheck st TOKEN_IDENTIFIER then
        some (none, parserError st (chars ("Expected variable name after 'var'")))
      else
        let nameTok := st.current
        let st := parserAdvance st
        let me := parserMatch st TOKEN_OPERATOR (some (chars ("=")))
        if me.1 then do
          let r ← parseExpression n me.2
          match r.1 with
          | none =>
            some (none, parserError r.2 (chars ("Expected expression after '='")))
          | some v =>
            some (some (Ast.varDecl nameTok.value (some v) false nameTok.line
              nameTok.column), r.2)
        else
          some (some (Ast.varDecl nameTok.value none false nameTok.line
            nameTok.column), me.2)
    else
    let mc := parserMatch mv.2 TOKEN_CONST none
    if mc.1 then
      let st := mc.2
      if !parserCheck st TOKEN_IDENTIFIER then
        some (none, parserError st (chars ("Expected constant name after 'const'")))
      else
        let nameTok := st.current
        let st := parserAdvance st
        let e := parserExpect st TOKEN_OPERATOR (some (chars ("=")))
          (chars ("Expected '=' after constant name"))
        if !e.1 then some (none, e.2)
        else do
          let r ← parseExpression n e.2
          match r.1 with
          | none =>
            some (none, parserError r.2 (chars ("Expected expression after '='")))
          | some v =>
            some (some (Ast.varDecl nameTok.value (some v) true nameTok.line
              nameTok.column), r.2)
    else
    let mr := parserMatch mc.2 TOKEN_RETURN none
    if mr.1 then
      let st := mr.2
      if !(parserCheck st TOKEN_NEWLINE || parserCheck st TOKEN_EOF ||
           (parserCheck st TOKEN_PUNCTUATION &&
            parserCheckValue st TOKEN_PUNCTUATION (some (chars ("\x7d"))))) then do
        let r ← parseExpression n st
        let st := r.2
        some (some (Ast.returnStmt r.1 st.current.line st.current.column), st)
      else
        some (some (Ast.returnStmt none st.current.line st.current.column), st)
    else
    let mb := parserMatch mr.2 TOKEN_BREAK none
    if mb.1 then
      let st := mb.2
      some (some (Ast.breakStmt st.current.line st.current.column), st)
    else
    let mco := parserMatch mb.2 TOKEN_CONTINUE none
    if mco.1 then
      let st := mco.2
      some (some (Ast.continueStmt st.current.line st.current.column), st)
    else
    let mi := parserMatch mco.2 TOKEN_IF none
    if mi.1 then parseIfRest n mi.2
    else
    let mw := parserMatch mi.2 TOKEN_WHILE none
    if mw.1 then parseWhileRest n mw.2
    else
    let mf := parserMatch mw.2 TOKEN_FOR none
    if mf.1 then parseForRest n mf.2
    else
    let mfr := parserMatch mf.2 TOKEN_FROM none
    if mfr.1 then parseFromRest n mfr.2
    else do
      let r ← parseExpression n mfr.2
      match r.1 with
      | some expr =>
        let st := r.2
        some (some (Ast.exprStmt expr st.current.line st.current.column), st)
      | none => some (none, parserError r.2 (chars ("Expected statement")))

/-- The body of the `if` branch in `parse_statement`, after `if` was
consumed: condition with optional parentheses, optional `:`, then branch as
block or single statement. -/
def parseIfRest : Nat → PState → Option (Option Ast × PState)
  | 0, _ => none
  | n + 1, st =>
    let hp := parserMatch st TOKEN_PUNCTUATION (some (chars ("(")))
    do
    let rc ← parseExpression n hp.2
    match rc.1 with
    | none => some (none, parserError rc.2 (chars ("Expected condition after 'if'")))
    | some cond =>
      let e :=
        if hp.1 then
          parserExpect rc.2 TOKEN_PUNCTUATION (some (chars (")")))
            (chars ("Expected ')' after condition"))
        else (true, rc.2)
      if !e.1 then some (none, e.2)
      else
        let st := (parserMatch e.2 TOKEN_PUNCTUATION (some (chars (":")))).2
        let ob := parserMatch st TOKEN_PUNCTUATION (some (chars ("\x7b")))
        if ob.1 then do
          let rb ← parseBlock n ob.2
          let e2 := parserExpect rb.2 TOKEN_PUNCTUATION (some (chars ("\x7d")))
            (chars ("Expected '\x7d' after block"))
          if !e2.1 then some (none, e2.2)
          else parseIfTail n cond rb.1 e2.2
        else do
          let rs ← parseStatement n ob.2
          match rs.1 with
          | none =>
            some (none,
              parserError rs.2 (chars ("Expected statement after 'if' condition")))
          | some thenB => parseIfTail n cond thenB rs.2

/-- The elif/else tail of the `if` branch.  The collected elif nodes are
then attached by walking the chain and calling
`add_next_statement(if_node->flow.elif_branches, current)`; since
`create_if_node` left `flow.elif_branches` NULL, `add_next_statement`
returns immediately each time, and the if node keeps an empty elif list. -/
def parseIfTail : Nat → Ast → Ast → PState → Option (Option Ast × PState)
  | 0, _, _, _ => none
  | n + 1, cond, thenB, st => do
    let re ← parseElifLoop n [] st
    let st := re.2
    let me := parserMatch st TOKEN_ELSE none
    if me.1 then
      let st := (parserMatch me.2 TOKEN_PUNCTUATION (some (chars (":")))).2
      let ob := parserMatch st TOKEN_PUNCTUATION (some (chars ("\x7b")))
      if ob.1 then do
        let rb ← parseBlock n ob.2
        let e2 := parserExpect rb.2 TOKEN_PUNCTUATION (some (chars ("\x7d")))
          (chars ("Expected '\x7d' after block"))
        if !e2.1 then some (none, e2.2)
        else
          let st := e2.2
          some (some (Ast.ifStmt cond thenB (some rb.1) []
            st.current.line st.current.column), st)
      else do
        let rs ← parseStatement n ob.2
        match rs.1 with
        | none =>
          some (none, parserError rs.2 (chars ("Expected statement after 'else'")))
        | some elseB =>
          let st := rs.2
          some (some (Ast.ifStmt cond thenB (some elseB) []
            st.current.line st.current.column), st)
    else
      let st := me.2
      some (some (Ast.ifStmt cond thenB none [] st.current.line st.current.column), st)

/-- The `while (parser_match(TOKEN_ELIF))` loop of the `if` branch.  Errors
inside an elif clause `break` out of the loop (leaving the error flag set)
rather than failing the whole `if` statement.  The chain is built with the
head-aliasing `add_next_statement` (see `addNextHead`). -/
def parseElifLoop : Nat → List Ast → PState → Option (List Ast × PState)
  | 0, _, _ => none
  | n + 1, acc, st =>
    let m := parserMatch st TOKEN_ELIF none
    if !m.1 then some (acc, m.2)
    else
      let hp := parserMatch m.2 TOKEN_PUNCTUATION (some (chars ("(")))
      do
      let rc ← parseExpression n hp.2
      match rc.1 with
      | none =>
        some (acc, parserError rc.2 (chars ("Expected condition after 'elif'")))
      | some cond =>
        let e :=
          if hp.1 then
            parserExpect rc.2 TOKEN_PUNCTUATION (some (chars (")")))
              (chars ("Expected ')' after condition"))
          else (true, rc.2)
        if !e.1 then some (acc, e.2)
        else
          let st := (parserMatch e.2 TOKEN_PUNCTUATION (some (chars (":")))).2
          let ob := parserMatch st TOKEN_PUNCTUATION (some (chars ("\x7b")))
          if ob.1 then do
            let rb ← parseBlock n ob.2
            let e2 := parserExpect rb.2 TOKEN_PUNCTUATION (some (chars ("\x7d")))
              (chars ("Expected '\x7d' after block"))
            if !e2.1 then some (acc, e2.2)
            else
              let st := e2.2
              let acc := addNextHead acc
                (Ast.elifStmt cond rb.1 st.current.line st.current.column)
              parseElifLoop n acc st
          else do
            let rs ← parseStatement n ob.2
            match rs.1 with
            | none =>
              some (acc,
                parserError rs.2 (chars ("Expected statement after 'elif' condition")))
            | some tb =>
              let st := rs.2
              let acc := addNextHead acc
                (Ast.elifStmt cond tb st.current.line st.current.column)
              parseElifLoop n acc st

/-- The body of the `while` branch in `parse_statement`. -/
def parseWhileRest : Nat → PState → Option (Option Ast × PState)
  | 0, _ => none
  | n + 1, st =>
    let hp := parserMatch st TOKEN_PUNCTUATION (some (chars ("(")))
    do
    let rc ← parseExpression n hp.2
    match rc.1 with
    | none =>
      some (none, parserError rc.2 (chars ("Expected condition after 'while'")))
    | some cond =>
      let e :=
        if hp.1 then
          parserExpect rc.2 TOKEN_PUNCTUATION (some (chars (")")))
            (chars ("Expected ')' after condition"))
        else (true, rc.2)
      if !e.1 then some (none, e.2)
      else
        let st := (parserMatch e.2 TOKEN_PUNCTUATION (some (chars (":")))).2
        let ob := parserMatch st TOKEN_PUNCTUATION (some (chars ("\x7b")))
        if ob.1 then do
          let rb ← parseBlock n ob.2
          let e2 := parserExpect rb.2 TOKEN_PUNCTUATION (some (chars ("\x7d")))
            (chars ("Expected '\x7d' after block"))
          if !e2.1 then some (none, e2.2)
          else
            let st := e2.2
            some (some (Ast.whileStmt cond rb.1 st.current.line st.current.column), st)
        else do
          let rs ← parseStatement n ob.2
          match rs.1 with
          | none =>
            some (none,
              parserError rs.2 (chars ("Expected statement after 'while' condition")))
          | some body =>
            let st := rs.2
            some (some (Ast.whileStmt cond body st.current.line st.current.column), st)

/-- The body of the `for` branch in `parse_statement`. -/
def parseForRest : Nat → PState → Option (Option Ast × PState)
  | 0, _ => none
  | n + 1, st =>
    if !parserCheck st TOKEN_IDENTIFIER then
      some (none, parserError st (chars ("Expected iterator variable after 'for'")))
    else
      let itTok := st.current
      let st := parserAdvance st
      let e := parserExpect st TOKEN_IN none
        (chars ("Expected 'in' after iterator variable"))
      if !e.1 then some (none, e.2)
      else do
        let r ← parseExpression n e.2
        match r.1 with
        | none =>
          some (none, parserError r.2 (chars ("Expected iterable expression after 'in'")))
        | some iterable =>
          let st := (parserMatch r.2 TOKEN_PUNCTUATION (some (chars (":")))).2
          let ob := parserMatch st TOKEN_PUNCTUATION (some (chars ("\x7b")))
          if ob.1 then do
            let rb ← parseBlock n ob.2
            let e2 := parserExpect rb.2 TOKEN_PUNCTUATION (some (chars ("\x7d")))
              (chars ("Expected '\x7d' after block"))
            if !e2.1 then some (none, e2.2)
            else
              let st := e2.2
              some (some (Ast.forStmt itTok.value iterable rb.1
                st.current.line st.current.column), st)
          else do
            let rs ← parseStatement n ob.2
            match rs.1 with
            | none =>
              some (none,
                parserError rs.2 (chars ("Expected statement after 'for' header")))
            | some body =>
              let st := rs.2
              some (some (Ast.forStmt itTok.value iterable body
                st.current.line st.current.column), st)

/-- The body of the `from` branch in `parse_statement`.  Note that
`parser_expect` does not consume the `using` token on success. -/
def parseFromRest : Nat → PState → Option (Option Ast × PState)
  | 0, _ => none
  | n + 1, st =>
    if !parserCheck st TOKEN_IDENTIFIER then
      some (none, parserError st (chars ("Expected module name after 'from'")))
    else
      let modTok := st.current
      let st := parserAdvance st
      let e := parserExpect st TOKEN_USING none
        (chars ("Expected 'using' after module name"))
      if !e.1 then some (none, e.2)
      else
        let mw := parserMatch e.2 TOKEN_OPERATOR (some (chars ("*")))
        if mw.1 then
          let st := mw.2
          some (some (Ast.fromImport modTok.value [] true
            st.current.line st.current.column), st)
        else do
          let r ← parseImportLoop n mw.2 []
          let st := r.2
          some (some (Ast.fromImport modTok.value r.1 false
            st.current.line st.current.column), st)

/-- The identifier-list loop of the `from` branch (the created node always
receives whatever names were collected, errors recorded in the state). -/
def parseImportLoop : Nat → PState → List (Option (List Char)) →
    Option (List (Option (List Char)) × PState)
  | 0, _, _ => none
  | n + 1, st, imports =>
    if !parserCheck st TOKEN_IDENTIFIER then
      some (imports, parserError st (chars ("Expected identifier in import list")))
    else
      let nameV := st.current.value
      let st := parserAdvance st
      let imports := imports ++ [nameV]
      let c := parserMatch st TOKEN_PUNCTUATION (some (chars (",")))
      if c.1 then parseImportLoop n c.2 imports
      else some (imports, c.2)

/-- The statement loop of `parse_program`: identical to the block loop but
terminated by EOF instead of `}`. -/
def parseProgLoop : Nat → List Ast → PState → Option (List Ast × PState)
  | 0, _, _ => none
  | n + 1, acc, st =>
    if parserCheck st TOKEN_EOF then some (acc, st)
    else if parserCheck st TOKEN_NEWLINE then parseProgLoop n acc (parserAdvance st)
    else do
      let r ← parseStatement n st
      match r.1 with
      | none => parseProgLoop n acc (parseRecover n r.2)
      | some stmt =>
        let acc := acc ++ [stmt]
        let st := (parserMatch r.2 TOKEN_PUNCTUATION (some (chars (";")))).2
        let st := if parserCheck st TOKEN_NEWLINE then parserAdvance st else st
        parseProgLoop n acc st

end

/-- `parse_program`. -/
def parseProgramF (fuel : Nat) (st : PState) : Option (Ast × PState) :=
  (parseProgLoop fuel [] st).map (fun r => (Ast.program r.1, r.2))

/-- `parse_source`, retaining the final parser state alongside the result:
create the lexer and parser, run `parse_program`, and discard the tree
(returning NULL, here `none`) exactly when the parser's sticky error flag
is set.  The outer `Option` is fuel exhaustion. -/
def parseSourceFull (fuel : Nat) (src : List Char) : Option (Option Ast × PState) :=
  let l := lexerCreate src
  let st := parserCreate l
  match parseProgramF fuel st with
  | none => none
  | some r => some (if r.2.hasError then none else some r.1, r.2)

/-- `parse_source` as seen by the caller: the returned AST or NULL. -/
def parseSource (fuel : Nat) (src : List Char) : Option (Option Ast) :=
  (parseSourceFull fuel src).map (fun r => r.1)

/-! ### Helper lemmas -/

/-- `lexer_advance` never changes the source buffer. -/
theorem lexAdvance_source (s : ScanSt) : ((lexAdvance s).2).source = s.source := by
  simp only [lexAdvance]
  split <;> rfl

/-- `lexer_advance` never moves the cursor backwards. -/
theorem lexAdvance_pos_le (s : ScanSt) : s.pos ≤ ((lexAdvance s).2).pos := by
  simp only [lexAdvance]
  split <;> simp

/-- `lexer_error` changes neither the source buffer nor the cursor. -/
theorem scanError_source (s : ScanSt) (m : List Char) :
    (scanError s m).source = s.source := rfl

/-- `lexer_error` does not move the cursor. -/
theorem scanError_pos (s : ScanSt) (m : List Char) : (scanError s m).pos = s.pos := rfl

/-- The escape-sequence processor changes neither the source buffer, nor
moves the cursor backwards. -/
theorem strEscape_mono (s : ScanSt) :
    ((strEscape s).2).source = s.source ∧ s.pos ≤ ((strEscape s).2).pos := by
  simp only [strEscape]
  generalize hA : lexAdvance s = a
  have h1 : a.2.source = s.source ∧ s.pos ≤ a.2.pos := by
    rw [← hA]; exact ⟨lexAdvance_source s, lexAdvance_pos_le s⟩
  obtain ⟨c1, s1⟩ := a
  obtain ⟨h1s, h1p⟩ := h1
  replace h1s : s1.source = s.source := h1s
  replace h1p : s.pos ≤ s1.pos := h1p
  by_cases e1 : c1 = 'n'
  · rw [if_pos e1]; exact ⟨h1s, h1p⟩
  rw [if_neg e1]
  by_cases e2 : c1 = 't'
  · rw [if_pos e2]; exact ⟨h1s, h1p⟩
  rw [if_neg e2]
  by_cases e3 : c1 = 'r'
  · rw [if_pos e3]; exact ⟨h1s, h1p⟩
  rw [if_neg e3]
  by_cases e4 : c1 = '"'
  · rw [if_pos e4]; exact ⟨h1s, h1p⟩
  rw [if_neg e4]
  by_cases e5 : c1 = squote
  · rw [if_pos e5]; exact ⟨h1s, h1p⟩
  rw [if_neg e5]
  by_cases e6 : c1 = bslash
  · rw [if_pos e6]; exact ⟨h1s, h1p⟩
  rw [if_neg e6]
  by_cases e7 : c1 = '0'
  · rw [if_pos e7]; exact ⟨h1s, h1p⟩
  rw [if_neg e7]
  by_cases e8 : c1 = 'x'
  · rw [if_pos e8]
    generalize hB : lexAdvance s1 = b
    have h2s : b.2.source = s.source := by rw [← hB, lexAdvance_source, h1s]
    have h2p : s.pos ≤ b.2.pos := by
      rw [← hB]; exact le_trans h1p (lexAdvance_pos_le s1)
    obtain ⟨c2, s2⟩ := b
    replace h2s : s2.source = s.source := h2s
    replace h2p : s.pos ≤ s2.pos := h2p
    generalize hC : lexAdvance s2 = c
    have h3s : c.2.source = s.source := by rw [← hC, lexAdvance_source, h2s]
    have h3p : s.pos ≤ c.2.pos := by
      rw [← hC]; exact le_trans h2p (lexAdvance_pos_le s2)
    obtain ⟨c3, s3⟩ := c
    exact ⟨h3s, h3p⟩
  rw [if_neg e8]
  by_cases e9 : c1 = 'u'
  · rw [if_pos e9]
    generalize hB : lexAdvance s1 = b
    have h2s : b.2.source = s.source := by rw [← hB, lexAdvance_source, h1s]
    have h2p : s.pos ≤ b.2.pos := by
      rw [← hB]; exact le_trans h1p (lexAdvance_pos_le s1)
    obtain ⟨c2, s2⟩ := b
    replace h2s : s2.source = s.source := h2s
    replace h2p : s.pos ≤ s2.pos := h2p
    by_cases u1 : (!isXdigitC c2) = true
    · rw [if_pos u1]
      exact ⟨by rw [scanError_source, h2s], le_trans h2p (le_of_eq (scanError_pos _ _).symm)⟩
    rw [if_neg u1]
    generalize hC : lexAdvance s2 = c
    have h3s : c.2.source = s.source := by rw [← hC, lexAdvance_source, h2s]
    have h3p : s.pos ≤ c.2.pos := by
      rw [← hC]; exact le_trans h2p (lexAdvance_pos_le s2)
    obtain ⟨c3, s3⟩ := c
    replace h3s : s3.source = s.source := h3s
    replace h3p : s.pos ≤ s3.pos := h3p
    by_cases u2 : (!isXdigitC c3) = true
    · rw [if_pos u2]
      exact ⟨by rw [scanError_source, h3s], le_trans h3p (le_of_eq (scanError_pos _ _).symm)⟩
    rw [if_neg u2]
    generalize hD : lexAdvance s3 = d
    have h4s : d.2.source = s.source := by rw [← hD, lexAdvance_source, h3s]
    have h4p : s.pos ≤ d.2.pos := by
      rw [← hD]; exact le_trans h3p (lexAdvance_pos_le s3)
    obtain ⟨c4, s4⟩ := d
    replace h4s : s4.source = s.source := h4s
    replace h4p : s.pos ≤ s4.pos := h4p
    by_cases u3 : (!isXdigitC c4) = true
    · rw [if_pos u3]
      exact ⟨by rw [scanError_source, h4s], le_trans h4p (le_of_eq (scanError_pos _ _).symm)⟩
    rw [if_neg u3]
    generalize hE : lexAdvance s4 = e
    have h5s : e.2.source = s.source := by rw [← hE, lexAdvance_source, h4s]
    have h5p : s.pos ≤ e.2.pos := by
      rw [← hE]; exact le_trans h4p (lexAdvance_pos_le s4)
    obtain ⟨c5, s5⟩ := e
    replace h5s : s5.source = s.source := h5s
    replace h5p : s.pos ≤ s5.pos := h5p
    by_cases u4 : (!isXdigitC c5) = true
    · rw [if_pos u4]
      exact ⟨by rw [scanError_source, h5s], le_trans h5p (le_of_eq (scanError_pos _ _).symm)⟩
    rw [if_neg u4]
    exact ⟨h5s, h5p⟩
  rw [if_neg e9]
  exact ⟨by rw [scanError_source, h1s], le_trans h1p (le_of_eq (scanError_pos _ _).symm)⟩

/-- The string-assembly loop changes neither the source buffer, nor moves
the cursor backwards (for every fuel value). -/
theorem strLoopF_mono (f : Nat) (q : Char) (s : ScanSt) :
    (strLoopF f q s).source = s.source ∧ s.pos ≤ (strLoopF f q s).pos := by
  induction f generalizing s with
  | zero => exact ⟨rfl, le_refl _⟩
  | succ n ih =>
    rw [strLoopF]
    split
    · dsimp only
      generalize hA : lexAdvance s = a
      have h1 : a.2.source = s.source ∧ s.pos ≤ a.2.pos := by
        rw [← hA]; exact ⟨lexAdvance_source s, lexAdvance_pos_le s⟩
      obtain ⟨c1, s1⟩ := a
      obtain ⟨h1s, h1p⟩ := h1
      replace h1s : s1.source = s.source := h1s
      replace h1p : s.pos ≤ s1.pos := h1p
      generalize hE : (if c1 = bslash then strEscape s1 else (c1, s1)) = e
      have h2 : e.2.source = s.source ∧ s.pos ≤ e.2.pos := by
        rw [← hE]
        split
        · exact ⟨by rw [(strEscape_mono s1).1, h1s],
                 le_trans h1p (strEscape_mono s1).2⟩
        · exact ⟨h1s, h1p⟩
      obtain ⟨c2, s2⟩ := e
      obtain ⟨h2s, h2p⟩ := h2
      replace h2s : s2.source = s.source := h2s
      replace h2p : s.pos ≤ s2.pos := h2p
      split
      · exact ⟨by rw [scanError_source, h2s],
               le_trans h2p (le_of_eq (scanError_pos _ _).symm)⟩
      · have hr := ih { s2 with stringBuffer := s2.stringBuffer ++ [c2] }
        exact ⟨by rw [hr.1]; exact h2s, le_trans h2p hr.2⟩
    · exact ⟨rfl, le_refl _⟩

/-- An element read with a default at an index past a drop point is either a
member of the dropped suffix or the default. -/
theorem getD_drop_mem_or {α : Type} (l : List α) (m n : Nat) (d : α) (h : m ≤ n) :
    l.getD n d ∈ l.drop m ∨ l.getD n d = d := by
  by_cases hlt : n < l.length
  · left
    have h1 : l.getD n d = l[n] := by
      simp [List.getD_eq_getElem?_getD, List.getElem?_eq_getElem hlt]
    have h2 : n - m < (l.drop m).length := by
      simp [List.length_drop]
      omega
    have h3 : (l.drop m)[n - m] = l[n] := by
      rw [List.getElem_drop]
      congr 1
      omega
    rw [h1, ← h3]
    exact List.getElem_mem h2
  · right
    simp [List.getD_eq_getElem?_getD,
      List.getElem?_eq_none (by omega : l.length ≤ n)]

/-! ### Claim theorems -/

/-- The first `lexer_next` call on a freshly created lexer over `src`
(there is no lookahead yet, so it is exactly the scanning path). -/
def lexFirst (src : List Char) : Token × ScanSt := scanToken (lexerCreate src).scan

/-- C1: the claim states that parsing `var x = 10 + 20 * 3` succeeds and
yields a var-declaration `x` whose initializer is `+` over `10` and
`* (20, 3)`.  The code instead returns an empty program node: `parser_create`
copies the lexer's initial synthetic EOF token without ever fetching a real
token, so `parse_program`'s loop exits immediately and `parse_source`
reports success with a statement-less program for every input. -/
theorem c1_precedence_source_parses_to_empty_program :
    parseSource 2 (chars ("var x = 10 + 20 * 3")) = some (some (Ast.program [])) := rfl

/-- C4: the claim states that parsing `from math using sin, cos, PI`
succeeds and yields a from-import node with module `math` and imports
`[sin, cos, PI]`.  As with C1, the code returns an empty program node. -/
theorem c4_from_import_source_parses_to_empty_program :
    parseSource 2 (chars ("from math using sin, cos, PI")) =
      some (some (Ast.program [])) := rfl

/-- C3: `parse_source` terminates on every finite source text: with any
positive fuel the embedded computation completes (the parser starts on the
lexer's synthetic EOF token, so the top-level statement loop exits at once
and, in particular, every iteration of it and of the panic-mode recovery
loop trivially makes progress). -/
theorem c3_parse_source_terminates (src : List Char) (fuel : Nat) :
    (parseSource (fuel + 1) src).isSome = true := by
  simp [parseSource, parseSourceFull, parseProgramF, parseProgLoop,
    parserCreate, lexerCreate, lexerCurrent, parserCheck]

/-- C2 (amended): a parse returns no AST exactly when the parser's sticky
syntactic error flag is set at the end of `parse_program`; lexical errors
recorded by the lexer play no part in the decision. -/
theorem c2_failure_iff_parser_error_flag (src : List Char) (fuel : Nat) :
    ((parseSourceFull fuel src).all fun r => r.1.isNone == r.2.hasError) = true := by
  cases fuel with
  | zero => rfl
  | succ n =>
    simp [parseSourceFull, parseProgramF, parseProgLoop,
      parserCreate, lexerCreate, lexerCurrent, parserCheck]

/-- A 129-character identifier: scanning it trips the IdentifierTooLong
lexical error while still producing a usable identifier token. -/
def longIdentSrc : List Char := List.replicate 129 'a'

set_option maxRecDepth 16384 in
/-- C2 (counterexample): the claim demands that a source triggering only a
lexical error — an over-long identifier that is still used as a token —
must make `parse_source` return failure.  Lexing this source does record a
lexical error, yet `parse_source` succeeds (returning the empty program). -/
theorem c2_lexical_error_yet_parse_succeeds :
    parseSource 1 longIdentSrc = some (some (Ast.program [])) ∧
    (lexFirst longIdentSrc).2.hasError = true ∧
    (lexFirst longIdentSrc).1.type = TOKEN_IDENTIFIER := by
  exact ⟨rfl, by decide, by decide⟩

/-- C9: numeric round trips.  `42` lexes to an integer token of value 42,
`0xFF` to 255, `0b1010` to 10, and `3.14e-2` to a float token whose exact
rational value is 0.0314 (the C `double` is this value rounded, within
floating-point tolerance). -/
theorem c9_numeric_round_trip :
    (lexFirst (chars ("42"))).1.type = TOKEN_NUMBER_INT ∧
    (lexFirst (chars ("42"))).1.intVal = 42 ∧
    (lexFirst (chars ("0xFF"))).1.type = TOKEN_NUMBER_INT ∧
    (lexFirst (chars ("0xFF"))).1.intVal = 255 ∧
    (lexFirst (chars ("0b1010"))).1.type = TOKEN_NUMBER_INT ∧
    (lexFirst (chars ("0b1010"))).1.intVal = 10 ∧
    (lexFirst (chars ("3.14e-2"))).1.type = TOKEN_NUMBER_FLOAT ∧
    (lexFirst (chars ("3.14e-2"))).1.floatVal = (0.0314 : Rat) := by
  have h42 : (lexFirst (chars ("42"))).1.type = TOKEN_NUMBER_INT ∧
      (lexFirst (chars ("42"))).1.intVal = 42 := by decide
  have hxff : (lexFirst (chars ("0xFF"))).1.type = TOKEN_NUMBER_INT ∧
      (lexFirst (chars ("0xFF"))).1.intVal = 255 := by decide
  have hbin : (lexFirst (chars ("0b1010"))).1.type = TOKEN_NUMBER_INT ∧
      (lexFirst (chars ("0b1010"))).1.intVal = 10 := by decide
  have hfty : (lexFirst (chars ("3.14e-2"))).1.type = TOKEN_NUMBER_FLOAT := by decide
  have hfval : (lexFirst (chars ("3.14e-2"))).1.floatVal = (0.0314 : Rat) := by
    with_unfolding_all rfl
  exact ⟨h42.1, h42.2, hxff.1, hxff.2, hbin.1, hbin.2, hfty, hfval⟩

/-- C7: the claim asserts line = 1 + number of consumed newlines, newlines
inside block comments counting once.  The code counts them twice: the
block-comment loop increments `line` manually and then `lexer_advance`
increments it again, so after `/*\n*/` the token `x` is reported at line 3
although only one newline was consumed (the claimed invariant gives 2). -/
theorem c7_block_comment_newline_counted_twice :
    (lexFirst (chars ("/*\n*/x"))).1.type = TOKEN_IDENTIFIER ∧
    (lexFirst (chars ("/*\n*/x"))).1.value = some (chars ("x")) ∧
    (lexFirst (chars ("/*\n*/x"))).1.line = 3 ∧
    (chars ("/*\n*/x")).count '\n' = 1 := by
  decide

/-- C6 (counterexample): scanning `1.2.3` stops at the second `.`: the
returned token's lexeme is `1.2` (length 3, cursor left at position 3, the
offending dot unconsumed), not the whole malformed run `1.2.3`, refuting
the claim that scanning continues to the end of the run. -/
theorem c6_second_dot_stops_scan_counterexample :
    (lexFirst (chars ("1.2.3"))).1.value = some (chars ("1.2")) ∧
    (lexFirst (chars ("1.2.3"))).1.length = 3 ∧
    (lexFirst (chars ("1.2.3"))).2.hasError = true ∧
    (lexFirst (chars ("1.2.3"))).2.pos = 3 ∧
    chars ("1.2") ≠ chars ("1.2.3") := by
  decide

/-- C5 (counterexample): the claim says a string literal containing a raw
newline before its closing quote yields an UnclosedString error.  The code
consumes the newline as ordinary string content: `"a\nb"` lexes to a STRING
token with the newline inside and no error. -/
theorem c5_raw_newline_in_string_accepted :
    (lexFirst (chars ("\"a\nb\""))).1.type = TOKEN_STRING ∧
    (lexFirst (chars ("\"a\nb\""))).1.value = some (chars ("a\nb")) ∧
    (lexFirst (chars ("\"a\nb\""))).2.hasError = false := by
  decide

/-- C10: for every lexer state (in particular every reachable one), the
token returned by `lexer_peek_token(lexer, 0)` is exactly the token the
immediately following `lexer_next` returns — every field included — and
running `lexer_next` after the peek leaves the lexer in the same state as
running it without the peek, so peeking never alters which tokens are
subsequently consumed or their order. -/
theorem c10_peek_zero_agrees_with_next (l : Lexer) :
    (lexerPeekToken l 0).1 = (lexerNext l).1 ∧
    lexerNext (lexerPeekToken l 0).2 = lexerNext l := by
  obtain ⟨scan, current, lookahead⟩ := l
  cases lookahead with
  | nil => exact ⟨rfl, rfl⟩
  | cons t ts => exact ⟨rfl, rfl⟩


set_option maxHeartbeats 1600000 in
/-- C8: for every two-character operator of the operator table and every
continuation of the input, the scanner returns that operator as one single
OPERATOR token of length 2 (the cursor moves past both characters), never
two one-character tokens. -/
theorem c8_two_char_operator_longest_match (a b : Char) (rest : List Char)
    (h : [a, b] ∈ twoCharOperators) :
    scanToken (lexerCreate (a :: b :: rest)).scan =
      ({ type := TOKEN_OPERATOR, value := some [a, b], intVal := 0, floatVal := 0,
         line := 1, column := 1, length := 2 },
       { source := a :: b :: rest, pos := 2, line := 1, column := 3,
         startPos := 0, startLine := 1, startColumn := 1,
         hasError := false, errorMsg := [], stringBuffer := [] }) := by
  have hcases : (a = '=' ∧ b = '=') ∨ (a = '!' ∧ b = '=') ∨ (a = '<' ∧ b = '=') ∨
      (a = '>' ∧ b = '=') ∨ (a = '&' ∧ b = '&') ∨ (a = '|' ∧ b = '|') ∨
      (a = '+' ∧ b = '=') ∨ (a = '-' ∧ b = '=') ∨ (a = '*' ∧ b = '=') ∨
      (a = '/' ∧ b = '=') ∨ (a = '%' ∧ b = '=') := by
    simpa [twoCharOperators, operatorTable, chars, List.filter] using h
  rcases hcases with hop | hop | hop | hop | hop | hop | hop | hop | hop | hop | hop <;>
    (obtain ⟨ha, hb⟩ := hop; subst ha; subst hb; rfl)

/-- C8 (witness): the theorem applied to `<=` at the start of the input. -/
theorem c8_two_char_operator_longest_match_witness :
    scanToken (lexerCreate ('<' :: '=' :: [])).scan =
      ({ type := TOKEN_OPERATOR, value := some ['<', '='], intVal := 0, floatVal := 0,
         line := 1, column := 1, length := 2 },
       { source := '<' :: '=' :: [], pos := 2, line := 1, column := 3,
         startPos := 0, startLine := 1, startColumn := 1,
         hasError := false, errorMsg := [], stringBuffer := [] }) :=
  c8_two_char_operator_longest_match '<' '=' [] (by decide)

/-- `lexer_advance` moves the cursor by exactly one when not at the
terminator. -/
theorem lexAdvance_pos_succ (s : ScanSt) (h : lexPeek s ≠ nulChar) :
    ((lexAdvance s).2).pos = s.pos + 1 := by
  simp [lexAdvance, h]

/-- `lexer_read_string` on a state whose current character is the opening
quote `q`: if `q` never occurs in the rest of the input, the scan ends in
an UnclosedString error token with the sticky flag set. -/
theorem readString_no_closing_quote (q : Char) (s : ScanSt)
    (hq : q ≠ nulChar)
    (hsrc : ∀ c ∈ s.source.drop (s.pos + 1), c ≠ q)
    (hpeek : lexPeek s = q) :
    (readString s).1.type = TOKEN_ERROR ∧
    (readString s).1.value = some (chars ("Unclosed string")) ∧
    (readString s).2.hasError = true := by
  simp only [readString]
  generalize hA : lexAdvance (startToken s) = a
  have hpeek0 : lexPeek (startToken s) = q := hpeek
  have ha1 : a.1 = q := by
    rw [← hA]; simp [lexAdvance, hpeek0, hq]
  have ha2src : a.2.source = s.source := by rw [← hA]; exact lexAdvance_source _
  have ha2pos : a.2.pos = s.pos + 1 := by
    rw [← hA]
    rw [lexAdvance_pos_succ _ (show lexPeek (startToken s) ≠ nulChar by
      rw [hpeek0]; exact hq)]
    rfl
  rw [ha1]
  generalize hB : ({ a.2 with stringBuffer := [] } : ScanSt) = sb
  have hbsrc : sb.source = s.source := by rw [← hB]; exact ha2src
  have hbpos : sb.pos = s.pos + 1 := by rw [← hB]; exact ha2pos
  generalize hL : strLoopF (a.2.source.length + 1 - a.2.pos) q sb = s2
  have h2src : s2.source = s.source := by
    rw [← hL, (strLoopF_mono _ _ _).1]; exact hbsrc
  have h2pos : s.pos + 1 ≤ s2.pos := by
    rw [← hL]
    calc s.pos + 1 = sb.pos := hbpos.symm
      _ ≤ _ := (strLoopF_mono _ _ _).2
  have hne : lexPeek s2 ≠ q := by
    unfold lexPeek
    rw [h2src]
    rcases getD_drop_mem_or s.source (s.pos + 1) s2.pos nulChar h2pos with hmem | hdef
    · exact hsrc _ hmem
    · rw [hdef]; exact fun hcon => hq hcon.symm
  rw [if_pos hne]
  exact ⟨rfl, rfl, rfl⟩

/-- `lexer_next`'s skip-and-dispatch loop sends an input starting with a
double quote straight to `lexer_read_string`. -/
theorem scanToken_dq_dispatch (rest : List Char) :
    scanToken (⟨'"' :: rest, 0, 1, 1, 0, 1, 1, false, [], []⟩ : ScanSt) =
    readString ⟨'"' :: rest, 0, 1, 1, 0, 1, 1, false, [], []⟩ := by
  have hfuel : (⟨'"' :: rest, 0, 1, 1, 0, 1, 1, false, [], []⟩ : ScanSt).source.length + 1 -
      (⟨'"' :: rest, 0, 1, 1, 0, 1, 1, false, [], []⟩ : ScanSt).pos = rest.length + 2 := by
    simp
  rw [scanToken, hfuel, scanLoopF]
  rw [show skipWs (⟨'"' :: rest, 0, 1, 1, 0, 1, 1, false, [], []⟩ : ScanSt) =
      ⟨'"' :: rest, 0, 1, 1, 0, 1, 1, false, [], []⟩ from rfl]
  rw [show skipLineComment (⟨'"' :: rest, 0, 1, 1, 0, 1, 1, false, [], []⟩ : ScanSt) =
      none from rfl]
  rw [show skipBlockComment (⟨'"' :: rest, 0, 1, 1, 0, 1, 1, false, [], []⟩ : ScanSt) =
      none from rfl]
  rfl

/-- `lexer_next`'s skip-and-dispatch loop sends an input starting with a
single quote straight to `lexer_read_string`. -/
theorem scanToken_sq_dispatch (rest : List Char) :
    scanToken (⟨squote :: rest, 0, 1, 1, 0, 1, 1, false, [], []⟩ : ScanSt) =
    readString ⟨squote :: rest, 0, 1, 1, 0, 1, 1, false, [], []⟩ := by
  have hfuel : (⟨squote :: rest, 0, 1, 1, 0, 1, 1, false, [], []⟩ : ScanSt).source.length + 1 -
      (⟨squote :: rest, 0, 1, 1, 0, 1, 1, false, [], []⟩ : ScanSt).pos = rest.length + 2 := by
    simp
  rw [scanToken, hfuel, scanLoopF]
  rw [show skipWs (⟨squote :: rest, 0, 1, 1, 0, 1, 1, false, [], []⟩ : ScanSt) =
      ⟨squote :: rest, 0, 1, 1, 0, 1, 1, false, [], []⟩ from rfl]
  rw [show skipLineComment (⟨squote :: rest, 0, 1, 1, 0, 1, 1, false, [], []⟩ : ScanSt) =
      none from rfl]
  rw [show skipBlockComment (⟨squote :: rest, 0, 1, 1, 0, 1, 1, false, [], []⟩ : ScanSt) =
      none from rfl]
  rfl

/-- C5 (amended): a string literal whose opening quote (either `"` or `'`)
is never matched again before the end of the input yields an UnclosedString
lexical error and an error-kind token with the sticky error flag set —
whatever else the remainder contains.  (A raw newline does NOT terminate
the scan with an error; see the counterexample theorem.) -/
theorem c5_unmatched_quote_unclosed_string_error (q : Char) (rest : List Char)
    (hq : q = '"' ∨ q = squote)
    (hrest : ∀ c ∈ rest, c ≠ q) :
    (scanToken (lexerCreate (q :: rest)).scan).1.type = TOKEN_ERROR ∧
    (scanToken (lexerCreate (q :: rest)).scan).1.value =
      some (chars ("Unclosed string")) ∧
    (scanToken (lexerCreate (q :: rest)).scan).2.hasError = true := by
  rcases hq with rfl | rfl
  · rw [show (lexerCreate ('"' :: rest)).scan =
        (⟨'"' :: rest, 0, 1, 1, 0, 1, 1, false, [], []⟩ : ScanSt) from rfl,
      scanToken_dq_dispatch rest]
    exact readString_no_closing_quote '"' _ (by decide) (fun c hc => hrest c hc) rfl
  · rw [show (lexerCreate (squote :: rest)).scan =
        (⟨squote :: rest, 0, 1, 1, 0, 1, 1, false, [], []⟩ : ScanSt) from rfl,
      scanToken_sq_dispatch rest]
    exact readString_no_closing_quote squote _ (by decide) (fun c hc => hrest c hc) rfl

/-- C5 (witness): the amended theorem applied to the input `"abc`. -/
theorem c5_unmatched_quote_unclosed_string_error_witness :
    (scanToken (lexerCreate ('"' :: chars ("abc"))).scan).1.type = TOKEN_ERROR ∧
    (scanToken (lexerCreate ('"' :: chars ("abc"))).scan).1.value =
      some (chars ("Unclosed string")) ∧
    (scanToken (lexerCreate ('"' :: chars ("abc"))).scan).2.hasError = true :=
  c5_unmatched_quote_unclosed_string_error '"' (chars ("abc")) (Or.inl rfl) (by decide)

/-- C6 (amended): in decimal scanning, a second `.` (a `.` when the literal
is already a float or has an exponent) or a second exponent marker makes
the number loop record InvalidNumberFormat and return immediately with the
cursor still on the offending character — it does not continue to the end
of the malformed run, so the token built afterwards covers only the run up
to (not including) that character. -/
theorem c6_second_separator_stops_number_scan
    (n : Nat) (isFloat hasExp : Bool) (s : ScanSt) :
    (lexPeek s = '.' → (isFloat || hasExp) = true →
      numLoopF (n + 1) false false isFloat hasExp s =
        (scanError s (chars ("Invalid number format")), isFloat)) ∧
    ((lexPeek s = 'e' ∨ lexPeek s = 'E') → hasExp = true →
      numLoopF (n + 1) false false isFloat hasExp s =
        (scanError s (chars ("Invalid number format")), isFloat)) := by
  constructor
  · intro hc hf
    rw [numLoopF, hc]
    simp [hf]
  · intro hc he
    rw [numLoopF]
    subst he
    rcases hc with h | h <;> rw [h] <;> simp

/-- C6 (witness): the amended theorem applied at the second `.` of `1.2.3`
(state as `lexer_read_number` reaches position 3) and discharged there. -/
theorem c6_second_separator_stops_number_scan_witness :
    numLoopF 3 false false true false
        (⟨chars ("1.2.3"), 3, 1, 4, 0, 1, 1, false, [], []⟩ : ScanSt) =
      (scanError (⟨chars ("1.2.3"), 3, 1, 4, 0, 1, 1, false, [], []⟩ : ScanSt)
        (chars ("Invalid number format")), true) :=
  (c6_second_separator_stops_number_scan 2 true false
    (⟨chars ("1.2.3"), 3, 1, 4, 0, 1, 1, false, [], []⟩ : ScanSt)).1
    (by decide) (by decide)
